import Mathlib

/-!
Shallow embedding of the ElizaOS Vision Agent demo repository:
the ORA response synthesizer (`generateResponse` and its helpers from
`src/actions/oraAction.js`), the Google Vision client fallback
(`GoogleVisionClient.analyzeImage` / `getMockResponse` from
`src/services/googleVisionService.js`), and the HTTP route handlers from
`src/server.js`.  JavaScript strings are modelled as Lean `String`,
JS `Array.prototype.includes` as `List.contains`, JS
`String.prototype.includes` as an explicit substring search, and JS
truthiness of strings (`""` is falsy) by explicit helpers.
-/

namespace VisionAgent

/-- Boolean test that `pat` is a prefix of `l` (character lists). -/
def charListHasPref : List Char → List Char → Bool
  | [], _ => true
  | _ :: _, [] => false
  | a :: s, b :: t => a == b && charListHasPref s t

/-- Boolean test that `pat` occurs as a contiguous run inside `hay`:
model of JavaScript `hay.includes(pat)` on strings. -/
def charListContains (pat : List Char) : List Char → Bool
  | [] => pat.isEmpty
  | c :: t => charListHasPref pat (c :: t) || charListContains pat t

/-- Model of JavaScript `s.includes(sub)` for strings. -/
def jsIncludes (s sub : String) : Bool :=
  charListContains sub.toList s.toList

/-- Model of JavaScript `s.toLowerCase()` (character-wise lower-casing). -/
def jsToLower (s : String) : String :=
  ⟨s.data.map Char.toLower⟩

/-- Model of JavaScript `s.startsWith(pre)`. -/
def jsStartsWith (s pre : String) : Bool :=
  charListHasPref pre.toList s.toList

/-- Model of the JS expression `xs[0] ? pre + xs[0] : alt` (also, with
`pre = ""`, of `xs[0] || alt`): the empty string is falsy in JS. -/
def jsHeadTern (xs : List String) (pre alt : String) : String :=
  match xs.head? with
  | some s => if s == "" then alt else pre ++ s
  | none => alt

/-- Model of the JS expression `x || d` for an optional string `x`. -/
def jsOptOr (x : Option String) (d : String) : String :=
  match x with
  | some s => if s == "" then d else s
  | none => d

/-- A label annotation: `{description, score}` (googleVisionService.js). -/
structure Label where
  description : String
  score : Rat
deriving DecidableEq

/-- A bounding-polygon vertex `{x, y}` (googleVisionService.js). -/
structure Vertex where
  x : Nat
  y : Nat
deriving DecidableEq

/-- A localized object annotation: `{name, score, boundingPoly}`. -/
structure DetectedObject where
  name : String
  score : Rat
  boundingPoly : List Vertex := []
deriving DecidableEq

/-- The normalized analysis shape `{labels, text, objects}` produced by the
vision adapter and consumed by the synthesizer. -/
structure AnalysisResult where
  labels : List Label
  text : String
  objects : List DetectedObject
deriving DecidableEq

/-- The synthesized answer `{completion}` returned by `generateResponse`. -/
structure Response where
  completion : String
deriving DecidableEq

/-- `const mainLabels = labels.slice(0, 5).map(l => l.description.toLowerCase())`
(oraAction.js line 176). -/
def mainLabels (a : AnalysisResult) : List String :=
  (a.labels.take 5).map (fun l => jsToLower l.description)

/-- `const mainObjects = objects.map(o => o.name.toLowerCase())`
(oraAction.js line 177). -/
def mainObjects (a : AnalysisResult) : List String :=
  a.objects.map (fun o => jsToLower o.name)

/-- `const allEntities = [...mainLabels, ...mainObjects]` (line 178). -/
def allEntities (a : AnalysisResult) : List String :=
  mainLabels a ++ mainObjects a

/-- The fixed luxury keyword list (oraAction.js lines 184-189). -/
def luxuryItems : List String :=
  ["watch", "analog watch", "timepiece", "wristwatch", "chronograph", "rolex",
   "omega", "patek philippe",
   "jewelry", "ring", "necklace", "bracelet", "diamond", "gold", "silver",
   "platinum",
   "sneakers", "shoes", "nike", "adidas", "jordan", "yeezy", "designer",
   "luxury", "fashion",
   "handbag", "purse", "wallet", "louis vuitton", "gucci", "prada", "chanel",
   "hermes"]

/-- `const detectedLuxuryItems = allEntities.filter(item => luxuryItems.includes(item))`
(line 192). -/
def detectedLuxuryItems (a : AnalysisResult) : List String :=
  (allEntities a).filter (fun item => luxuryItems.contains item)

/-- The guard of the top-level luxury branch (lines 194-195):
`detectedLuxuryItems.length > 0 || mainLabels.some(label =>
label.includes('watch') || label.includes('jewelry') || label.includes('fashion'))`. -/
def luxuryCond (a : AnalysisResult) : Bool :=
  decide (0 < (detectedLuxuryItems a).length) ||
    (mainLabels a).any (fun label =>
      jsIncludes label "watch" || jsIncludes label "jewelry" ||
        jsIncludes label "fashion")

/-- The watch sub-case guard (lines 198-199). -/
def isWatchCase (a : AnalysisResult) : Bool :=
  (mainLabels a).contains "watch" || (mainLabels a).contains "analog watch" ||
    (mainObjects a).contains "watch" || (mainObjects a).contains "analog watch"

/-- `labels.filter(l => !['watch','analog watch'].includes(l.description.toLowerCase()))
.slice(0, 5).map(l => l.description)` (lines 202-205). -/
def watchDetails (a : AnalysisResult) : List String :=
  ((a.labels.filter (fun l =>
      !((["watch", "analog watch"] : List String).contains
          (jsToLower l.description)))).take 5).map (fun l => l.description)

/-- Fixed opening of the watch-specific completion (line 208). -/
def watchOpening : String :=
  "This image shows a luxury timepiece. It appears to be an analog watch with the following characteristics: "

/-- Fixed closing of the watch-specific completion (line 208). -/
def watchClosing : String :=
  ". Watches like this are precision instruments that combine craftsmanship with functionality, often serving as both a practical tool and a fashion statement or collectible item."

/-- The watch-specific completion (line 208). -/
def watchCompletion (a : AnalysisResult) : String :=
  watchOpening ++ String.intercalate ", " (watchDetails a) ++ watchClosing

/-- The generic luxury-collectible completion (line 214). -/
def genericLuxuryCompletion (a : AnalysisResult) : String :=
  "This image shows a luxury collectible item: " ++
    String.intercalate ", " (detectedLuxuryItems a) ++
    ". The item features " ++
    String.intercalate ", " ((mainLabels a).take 3) ++
    " design elements. Luxury items like this are often valued for their craftsmanship, brand prestige, and aesthetic appeal, making them desirable collectibles."

/-- The top-level luxury branch body (lines 197-215). -/
def luxuryResponse (a : AnalysisResult) : Response :=
  if isWatchCase a then ⟨watchCompletion a⟩ else ⟨genericLuxuryCompletion a⟩

/-- The query intents of the else-if chain in `generateResponse`. -/
inductive Intent where
  | animal
  | object
  | color
  | textIntent
  | location
  | dflt
deriving DecidableEq

/-- The query-classification structure of the else-if chain (lines 219, 242-244,
274, 301-302, 315): case-insensitive substring tests in fixed priority order,
first match wins. -/
def classifyQuery (query : String) : Intent :=
  let ql := jsToLower query
  if jsIncludes ql "animal" || jsIncludes ql "pet" then .animal
  else if jsIncludes ql "object" || jsIncludes ql "thing" ||
      jsIncludes ql "what is" || jsIncludes ql "what's in" ||
      jsIncludes ql "show me" then .object
  else if jsIncludes ql "color" || jsIncludes ql "colour" then .color
  else if jsIncludes ql "text" || jsIncludes ql "say" ||
      jsIncludes ql "write" || jsIncludes ql "read" then .textIntent
  else if jsIncludes ql "where" || jsIncludes ql "location" then .location
  else .dflt

/-- The animal-identification branch (lines 219-239). -/
def animalResponse (a : AnalysisResult) : Response :=
  if (allEntities a).contains "cat" then
    ⟨"The image shows a cat. Cats are domestic felines known for their independent nature and grooming habits. They are popular pets worldwide."⟩
  else if (allEntities a).contains "dog" then
    ⟨"The image shows a dog. Dogs are domesticated mammals known for their loyalty and companionship. They are one of the most popular pets globally."⟩
  else if (mainLabels a).any (fun label =>
      (["animal", "mammal", "wildlife"] : List String).contains label) then
    let animalType := (mainLabels a).find? (fun label =>
      !((["animal", "mammal", "wildlife"] : List String).contains label))
    ⟨"The image appears to show a " ++ jsOptOr animalType "wild animal" ++
      ". I can see characteristics typical of " ++ jsOptOr animalType "wildlife" ++
      " in the image."⟩
  else
    ⟨"I don't see any animals in this image. The image appears to show " ++
      jsHeadTern (mainLabels a) "a " "a scene without animals" ++ "."⟩

/-- JS `text && text.length > 0 ? \x7btext note\x7d : ''` used in the object
branch (line 263): the note says "There is also text visible". -/
def objectTextNote (text : String) : String :=
  if text == "" then "" else "There is also text visible: \"" ++ text ++ "\"."

/-- The object-identification branch (lines 242-271), including the
luxury sub-case at lines 250-254. -/
def objectResponse (a : AnalysisResult) : Response :=
  if 0 < a.objects.length then
    let objectsList := String.intercalate ", " (a.objects.map (fun o => o.name))
    if 0 < (detectedLuxuryItems a).length then
      ⟨"The main object in this image is a luxury item: " ++ objectsList ++
        ". It features " ++ String.intercalate ", " ((mainLabels a).take 3) ++
        " design elements. This appears to be a high-quality collectible item."⟩
    else
      ⟨"The main objects in this image are: " ++ objectsList ++
        ". The image primarily shows " ++ jsHeadTern (mainLabels a) "" "a scene" ++
        " with " ++ toString a.objects.length ++ " identifiable objects."⟩
  else if 0 < (mainLabels a).length then
    ⟨"This image shows " ++ (mainLabels a).headD "" ++
      " with features including " ++
      String.intercalate ", " (((mainLabels a).drop 1).take 3) ++ ". " ++
      objectTextNote a.text⟩
  else
    ⟨"The image doesn't contain clearly defined objects. It appears to be a scene."⟩

/-- The fixed color-name list of the color branch (line 277). -/
def colorNames : List String :=
  ["red", "blue", "green", "yellow", "black", "white", "purple", "orange",
   "pink", "brown", "gray", "grey", "silver", "gold"]

/-- The color branch (lines 274-298). -/
def colorResponse (a : AnalysisResult) : Response :=
  let colorLabels := (mainLabels a).filter (fun label => colorNames.contains label)
  if 0 < colorLabels.length then
    ⟨"The dominant colors in this image appear to be " ++
      String.intercalate ", " colorLabels ++ "."⟩
  else if (mainLabels a).contains "sky" || (mainObjects a).contains "sky" then
    ⟨"The image contains sky which appears blue, and likely has other natural colors typical of an outdoor scene."⟩
  else if (mainLabels a).contains "landscape" || (mainLabels a).contains "nature" then
    ⟨"The image shows a natural landscape with typical earth tones, greens from vegetation, and blues from the sky."⟩
  else
    ⟨"I cannot specifically identify the colors in this image, but it appears to show " ++
      jsHeadTern (mainLabels a) "a " "a scene" ++ " with its typical coloration."⟩

/-- The text branch (lines 301-312). -/
def textResponse (a : AnalysisResult) : Response :=
  if 0 < a.text.length then
    ⟨"The text in the image reads: \"" ++ a.text ++ "\""⟩
  else
    ⟨"There is no visible text in this image."⟩

/-- The location branch (lines 315-339). -/
def locationResponse (a : AnalysisResult) : Response :=
  if (mainLabels a).contains "landscape" || (mainLabels a).contains "nature" ||
      (mainLabels a).contains "outdoor" then
    ⟨"This appears to be an outdoor natural setting. Based on the visible elements like " ++
      (if (mainLabels a).contains "tree" then "trees" else "natural features") ++
      ", it's likely a park, forest, or natural landscape area."⟩
  else if (mainLabels a).contains "indoor" || (mainLabels a).contains "room" then
    ⟨"This appears to be an indoor setting, possibly a " ++
      (if (mainLabels a).contains "kitchen" then "kitchen"
       else if (mainLabels a).contains "bedroom" then "bedroom"
       else if (mainLabels a).contains "office" then "office"
       else "room or building interior") ++ "."⟩
  else if (mainLabels a).contains "urban" || (mainLabels a).contains "city" then
    ⟨"This appears to be an urban setting, possibly in a city or town environment."⟩
  else
    ⟨"I cannot determine the specific location from this image. It appears to show " ++
      jsHeadTern (mainLabels a) "a " "a scene" ++ "."⟩

/-- JS `text && text.length > 0 ? \x7btext note\x7d : ''` used in the default
branch (lines 400-407): the note says "There is also some text visible". -/
def defaultTextNote (text : String) : String :=
  if text == "" then ""
  else "There is also some text visible: \"" ++ text ++ "\"."

/-- The default branch (lines 342-416), including its own luxury re-check. -/
def defaultResponse (a : AnalysisResult) : Response :=
  if 0 < (detectedLuxuryItems a).length then
    if isWatchCase a then ⟨watchCompletion a⟩ else ⟨genericLuxuryCompletion a⟩
  else if (mainLabels a).contains "cat" || (mainObjects a).contains "cat" then
    ⟨"This image shows a cat. It appears to be a domestic feline, commonly kept as a pet. Cats are known for their independent nature, agility, and grooming habits."⟩
  else if (mainLabels a).contains "dog" || (mainObjects a).contains "dog" then
    ⟨"This image shows a dog. Dogs are domesticated mammals that have been bred for various tasks such as hunting, herding, protection, and companionship."⟩
  else if (mainLabels a).contains "person" || (mainObjects a).contains "person" then
    ⟨"This image shows a person. I can see a human figure in the frame, though I cannot identify specific individuals."⟩
  else if (mainLabels a).contains "food" || (mainObjects a).contains "food" then
    ⟨"This image shows food. It appears to be a prepared dish or meal, though I cannot identify the specific cuisine or ingredients in detail."⟩
  else if (mainLabels a).contains "car" || (mainObjects a).contains "car" then
    ⟨"This image shows a car. It's a motor vehicle designed for transportation on roads, typically with four wheels."⟩
  else if 0 < a.text.length && 10 < a.text.length then
    ⟨"This image contains text that reads: \"" ++ a.text ++
      "\". It appears to be a document or text-containing image."⟩
  else if (mainLabels a).contains "landscape" || (mainLabels a).contains "nature" then
    ⟨"This image depicts a landscape photo featuring trees and sky with clouds. It's a natural outdoor scene showing elements of nature."⟩
  else
    let topLabels := ((mainLabels a).take 5).filter (fun l => 0 < l.length)
    if 0 < a.objects.length then
      ⟨"This image shows " ++
        String.intercalate ", " (a.objects.map (fun o => o.name)) ++
        ". The key features include " ++ String.intercalate ", " topLabels ++
        ". " ++ defaultTextNote a.text⟩
    else if 0 < topLabels.length then
      ⟨"This image shows " ++ topLabels.headD "" ++
        " with features including " ++
        String.intercalate ", " (topLabels.drop 1) ++ ". " ++
        defaultTextNote a.text⟩
    else
      ⟨"This image doesn't contain clearly identifiable objects or features that I can describe with confidence."⟩

/-- `OraAction.generateResponse(imageAnalysis, query, contextString)`
(oraAction.js lines 172-417).  The `contextString` parameter of the source is
never read by the function body and is omitted here.  The if/else-if chain of
the source is rendered as the top-level luxury test followed by a dispatch on
the first-match-wins query classification. -/
def generateResponse (a : AnalysisResult) (query : String) : Response :=
  if luxuryCond a then luxuryResponse a
  else
    match classifyQuery query with
    | .animal => animalResponse a
    | .object => objectResponse a
    | .color => colorResponse a
    | .textIntent => textResponse a
    | .location => locationResponse a
    | .dflt => defaultResponse a

/-- The variant of `objectResponse` with the luxury sub-case of lines 250-254
removed; used to state that this sub-case is dead code. -/
def objectResponseNoDead (a : AnalysisResult) : Response :=
  if 0 < a.objects.length then
    let objectsList := String.intercalate ", " (a.objects.map (fun o => o.name))
    ⟨"The main objects in this image are: " ++ objectsList ++
      ". The image primarily shows " ++ jsHeadTern (mainLabels a) "" "a scene" ++
      " with " ++ toString a.objects.length ++ " identifiable objects."⟩
  else if 0 < (mainLabels a).length then
    ⟨"This image shows " ++ (mainLabels a).headD "" ++
      " with features including " ++
      String.intercalate ", " (((mainLabels a).drop 1).take 3) ++ ". " ++
      objectTextNote a.text⟩
  else
    ⟨"The image doesn't contain clearly defined objects. It appears to be a scene."⟩

/-- `generateResponse` with the dead luxury sub-case of the object branch
removed. -/
def generateResponseNoDead (a : AnalysisResult) (query : String) : Response :=
  if luxuryCond a then luxuryResponse a
  else
    match classifyQuery query with
    | .animal => animalResponse a
    | .object => objectResponseNoDead a
    | .color => colorResponse a
    | .textIntent => textResponse a
    | .location => locationResponse a
    | .dflt => defaultResponse a

/-! ## Vision adapter fallback (googleVisionService.js) -/

/-- The base64 signature recognized as a person image
(googleVisionService.js line 236). -/
def base64PersonSignature : String :=
  "/9j/4AAQSkZJRgABAQAAAQABAAD/2wCEAAkGBxISEBMQEhIWFhEQFxUZEhgSFhcYEhATGhUXGRcRFhUY"

/-- The person mock fixture (googleVisionService.js lines 239-252). -/
def personFixture : AnalysisResult :=
  { labels :=
      [⟨"Person", 0.98⟩, ⟨"Human", 0.97⟩, ⟨"Face", 0.95⟩, ⟨"Portrait", 0.92⟩,
       ⟨"Photography", 0.90⟩],
    text := "",
    objects :=
      [⟨"Person", 0.98, [⟨100, 50⟩, ⟨500, 50⟩, ⟨500, 700⟩, ⟨100, 700⟩]⟩,
       ⟨"Face", 0.95, [⟨200, 100⟩, ⟨400, 100⟩, ⟨400, 300⟩, ⟨200, 300⟩]⟩] }

/-- The generic object mock fixture for base64 images
(googleVisionService.js lines 256-268). -/
def genericObjectFixture : AnalysisResult :=
  { labels :=
      [⟨"Object", 0.90⟩, ⟨"Item", 0.85⟩, ⟨"Product", 0.80⟩, ⟨"Artifact", 0.75⟩,
       ⟨"Material", 0.70⟩],
    text := "",
    objects :=
      [⟨"Object", 0.90, [⟨150, 150⟩, ⟨450, 150⟩, ⟨450, 450⟩, ⟨150, 450⟩]⟩] }

/-- The landscape mock fixture for plain URLs
(googleVisionService.js lines 274-287). -/
def landscapeFixture : AnalysisResult :=
  { labels :=
      [⟨"Sky", 0.95⟩, ⟨"Cloud", 0.92⟩, ⟨"Tree", 0.87⟩, ⟨"Nature", 0.85⟩,
       ⟨"Landscape", 0.82⟩],
    text := "",
    objects :=
      [⟨"Tree", 0.87, [⟨10, 10⟩, ⟨100, 10⟩, ⟨100, 200⟩, ⟨10, 200⟩]⟩,
       ⟨"Sky", 0.95, [⟨0, 0⟩, ⟨800, 0⟩, ⟨800, 300⟩, ⟨0, 300⟩]⟩] }

/-- `GoogleVisionClient.getMockResponse(imageUrl)`
(googleVisionService.js lines 220-288).  The Unsplash image-id extraction of
lines 222-229 only logs and has no effect on the returned value. -/
def getMockResponse (imageUrl : String) : AnalysisResult :=
  if jsStartsWith imageUrl "data:image/" then
    if jsIncludes imageUrl base64PersonSignature then personFixture
    else genericObjectFixture
  else landscapeFixture

/-- Outcome of the external Google Vision call made inside
`GoogleVisionClient.analyzeImage`: either any thrown failure (client not
initialized, network error, or an API error response, lines 149-186) or a
successfully processed annotation result (lines 189-205). -/
inductive VisionOutcome where
  | failure (msg : String)
  | ok (result : AnalysisResult)
deriving DecidableEq

/-- `GoogleVisionClient.analyzeImage(imageUrl, features)`
(googleVisionService.js lines 143-213): the whole body is wrapped in
try/catch, and the catch clause returns `getMockResponse(imageUrl)`; the
function never re-throws.  The external call and response processing are
abstracted by the `outcome` parameter; `features` only shapes the request
and never affects the fallback. -/
def analyzeImage (outcome : VisionOutcome) (imageUrl : String)
    (features : List String) : AnalysisResult :=
  match outcome with
  | .ok result => result
  | .failure _ => getMockResponse imageUrl

/-! ## Server route handlers (server.js) -/

/-- Default feature list used by the routes (server.js lines 377, 416). -/
def defaultFeatures : List String :=
  ["LABEL_DETECTION", "TEXT_DETECTION", "OBJECT_LOCALIZATION"]

/-- Result shape of `GoogleVisionAction.execute` (googleVisionAction.js
lines 36-55): `analyzeImage` never throws for a string `imageUrl`, so the
catch branch is unreachable and the result is always
`{success: true, data}`. -/
structure VisionActionResult where
  success : Bool
  data : AnalysisResult
deriving DecidableEq

/-- `GoogleVisionAction.execute({imageUrl, features})`. -/
def googleVisionExecute (outcome : VisionOutcome) (imageUrl : String)
    (features : List String) : VisionActionResult :=
  ⟨true, analyzeImage outcome imageUrl features⟩

/-- `OraAction.execute` on a well-formed `AnalysisResult` (oraAction.js
lines 90-128): `prepareContextString` and `generateResponse` cannot throw on
the well-formed shape, so the result is `generateResponse(imageAnalysis,
query, contextString)`, whose value does not depend on `contextString`. -/
def oraExecute (imageAnalysis : AnalysisResult) (query : String) : Response :=
  generateResponse imageAnalysis query

/-- Parsed JSON body of POST `/api/analyze-image`; absent fields are `none`. -/
structure AnalyzeImageBody where
  imageUrl : Option String
  features : Option (List String)
deriving DecidableEq

/-- Response of the `/api/analyze-image` route: 200 with the action result,
or 400 with an error message. -/
inductive AnalyzeImageResponse where
  | ok (result : VisionActionResult)
  | missingField (error : String)
deriving DecidableEq

/-- HTTP status written by the `/api/analyze-image` route. -/
def analyzeImageStatus : AnalyzeImageResponse → Nat
  | .ok _ => 200
  | .missingField _ => 400

/-- The `/api/analyze-image` route handler (server.js lines 366-383).
`if (!body.imageUrl)` treats an absent field and the empty string (both
falsy) alike; `body.features || [...]` substitutes the default list for an
absent field. -/
def handleAnalyzeImage (outcome : VisionOutcome) (body : AnalyzeImageBody) :
    AnalyzeImageResponse :=
  match body.imageUrl with
  | none => .missingField "imageUrl is required"
  | some u =>
    if u == "" then .missingField "imageUrl is required"
    else .ok (googleVisionExecute outcome u (body.features.getD defaultFeatures))

/-- Parsed JSON body of POST `/api/query-ora`. -/
structure QueryOraBody where
  imageAnalysis : Option AnalysisResult
  query : Option String
deriving DecidableEq

/-- Response of the `/api/query-ora` route. -/
inductive QueryOraResponse where
  | ok (result : Response)
  | missingField (error : String)
deriving DecidableEq

/-- HTTP status written by the `/api/query-ora` route. -/
def queryOraStatus : QueryOraResponse → Nat
  | .ok _ => 200
  | .missingField _ => 400

/-- The `/api/query-ora` route handler (server.js lines 385-402):
`if (!body.imageAnalysis || !body.query)` yields 400 when either field is
absent (or the query is the empty string, which is falsy). -/
def handleQueryOra (body : QueryOraBody) : QueryOraResponse :=
  match body.imageAnalysis, body.query with
  | some a, some q =>
    if q == "" then .missingField "imageAnalysis and query are required"
    else .ok (oraExecute a q)
  | _, _ => .missingField "imageAnalysis and query are required"

/-- Parsed JSON body of POST `/api/analyze-and-query`. -/
structure CombinedBody where
  imageUrl : Option String
  query : Option String
  features : Option (List String)
deriving DecidableEq

/-- Response of the `/api/analyze-and-query` route.  In the 200 response the
`oraResponse` field is `oraResponse.data || oraResponse` (server.js
line 439); `OraAction.execute` results carry no `data` field, so this is the
ora result itself. -/
inductive CombinedResponse where
  | ok (imageAnalysis : AnalysisResult) (oraResponse : Response)
  | missingField (error : String)
  | analysisFailed (error : String)
deriving DecidableEq

/-- HTTP status written by the `/api/analyze-and-query` route. -/
def combinedStatus : CombinedResponse → Nat
  | .ok _ _ => 200
  | .missingField _ => 400
  | .analysisFailed _ => 500

/-- The `/api/analyze-and-query` route handler (server.js lines 404-445). -/
def handleAnalyzeAndQuery (outcome : VisionOutcome) (body : CombinedBody) :
    CombinedResponse :=
  match body.imageUrl, body.query with
  | some u, some q =>
    if u == "" || q == "" then
      .missingField "imageUrl and query are required"
    else
      let imageAnalysis :=
        googleVisionExecute outcome u (body.features.getD defaultFeatures)
      if imageAnalysis.success then
        .ok imageAnalysis.data (oraExecute imageAnalysis.data q)
      else .analysisFailed "Failed to analyze image"
  | _, _ => .missingField "imageUrl and query are required"

/-! ## Malformed-input model of `OraAction.execute` (oraAction.js) -/

/-- A possibly malformed label: the `score` is `none` when the JSON value is
not a number (so `score.toFixed(2)` would throw). -/
structure RawLabel where
  description : String
  score : Option Rat
deriving DecidableEq

/-- A possibly malformed object annotation. -/
structure RawObject where
  name : String
  score : Option Rat
deriving DecidableEq

/-- A possibly malformed `imageAnalysis` parameter: each field is `none`
when absent from the JSON object. -/
structure RawAnalysis where
  labels : Option (List RawLabel)
  text : Option String
  objects : Option (List RawObject)
deriving DecidableEq

/-- The parameters object of `OraAction.execute` (carrying `imageAnalysis`
and `query` fields). -/
structure OraParams where
  imageAnalysis : RawAnalysis
  query : String
deriving DecidableEq

/-- `OraAction.prepareContextString(imageAnalysis)` (oraAction.js
lines 135-163), modelled for its throw behavior: the `labels` and `objects`
blocks are guarded by `labels && labels.length > 0` (resp. for objects), and
inside them `label.score.toFixed(2)` throws exactly when a score is not a
number.  The produced context string is passed to `generateResponse`, which
never reads it, so the success value is not modelled. -/
def prepareContextStringE (raw : RawAnalysis) : Except String Unit := do
  match raw.labels with
  | some ls =>
    if 0 < ls.length then
      if ls.all (fun l => l.score.isSome) then pure ()
      else throw "label score toFixed is not a function"
    else pure ()
  | none => pure ()
  match raw.objects with
  | some os =>
    if 0 < os.length then
      if os.all (fun o => o.score.isSome) then pure ()
      else throw "object score toFixed is not a function"
    else pure ()
  | none => pure ()

/-- `generateResponse` on a possibly malformed `imageAnalysis`: the body
immediately evaluates `labels.slice(0, 5)` and `objects.map(...)`
(lines 176-177), which throw when the field is absent; an absent `text`
behaves like the empty string in every later truthiness test.  Label and
object scores are never read by `generateResponse`. -/
def generateResponseE (raw : RawAnalysis) (query : String) :
    Except String Response :=
  match raw.labels with
  | none => throw "cannot read slice of undefined labels"
  | some ls =>
    match raw.objects with
    | none => throw "cannot read map of undefined objects"
    | some os =>
      pure (generateResponse
        ⟨ls.map (fun l => ⟨l.description, l.score.getD 0⟩),
         (raw.text).getD "",
         os.map (fun o => ⟨o.name, o.score.getD 0, []⟩)⟩ query)

/-- Outcome of `OraAction.execute`: either the generated response or the
error object `{error: true, message}` built in the catch clause. -/
inductive OraOutcome where
  | response (r : Response)
  | errorObj (message : String)
deriving DecidableEq

/-- `OraAction.execute(parameters)` (oraAction.js lines 90-128): the
try block runs `prepareContextString` and then `generateResponse`; any
exception is caught and becomes
`{error: true, message: "Failed to query ORA API: " + error.message}`. -/
def oraExecuteRaw (p : OraParams) : OraOutcome :=
  match prepareContextStringE p.imageAnalysis with
  | .error e => .errorObj ("Failed to query ORA API: " ++ e)
  | .ok _ =>
    match generateResponseE p.imageAnalysis p.query with
    | .error e => .errorObj ("Failed to query ORA API: " ++ e)
    | .ok r => .response r

/-! ## Helper lemmas -/

theorem charListHasPref_append {pat s t : List Char}
    (h : charListHasPref pat s = true) :
    charListHasPref pat (s ++ t) = true := by
  induction pat generalizing s with
  | nil => rfl
  | cons a p ih =>
    cases s with
    | nil => simp [charListHasPref] at h
    | cons b s' =>
      simp only [charListHasPref, Bool.and_eq_true] at h ⊢
      exact ⟨h.1, ih h.2⟩

theorem charListContains_nil (hay : List Char) :
    charListContains [] hay = true := by
  cases hay with
  | nil => rfl
  | cons c t => simp [charListContains, charListHasPref]

theorem charListContains_append {pat s t : List Char}
    (h : charListContains pat s = true) :
    charListContains pat (s ++ t) = true := by
  induction s with
  | nil =>
    simp only [charListContains, List.isEmpty_iff] at h
    subst h
    exact charListContains_nil t
  | cons c s' ih =>
    simp only [charListContains, List.cons_append, Bool.or_eq_true] at h ⊢
    rcases h with h | h
    · exact Or.inl (charListHasPref_append h)
    · exact Or.inr (ih h)

theorem jsIncludes_append_left {s t sub : String}
    (h : jsIncludes s sub = true) : jsIncludes (s ++ t) sub = true := by
  unfold jsIncludes at h ⊢
  show charListContains sub.toList ((s ++ t).data) = true
  rw [String.data_append]
  exact charListContains_append h

theorem detected_pos_of_mem {a : AnalysisResult} {e : String}
    (he : e ∈ allEntities a) (hl : e ∈ luxuryItems) :
    0 < (detectedLuxuryItems a).length := by
  rw [detectedLuxuryItems, List.length_pos]
  intro hnil
  rw [List.filter_eq_nil_iff] at hnil
  exact hnil e he (List.elem_iff.mpr hl)

theorem luxuryCond_of_detected {a : AnalysisResult}
    (h : 0 < (detectedLuxuryItems a).length) : luxuryCond a = true := by
  simp [luxuryCond, h]

theorem generateResponse_of_luxury {a : AnalysisResult} {q : String}
    (h : luxuryCond a = true) : generateResponse a q = luxuryResponse a := by
  simp [generateResponse, h]

/-! ## Claims -/

/-- C1: whenever the entity set (top-5 lower-cased label descriptions plus
all lower-cased object names) contains a luxury keyword, `generateResponse`
returns the same luxury-themed completion for every query — the
watch-specific template or the generic luxury-collectible template — so the
luxury check precedes and short-circuits query classification. -/
theorem luxury_short_circuits_classification (a : AnalysisResult)
    (q q' : String) (h : ∃ e ∈ allEntities a, e ∈ luxuryItems) :
    generateResponse a q = generateResponse a q' ∧
    ((generateResponse a q).completion = watchCompletion a ∨
      (generateResponse a q).completion = genericLuxuryCompletion a) := by
  obtain ⟨e, he, hl⟩ := h
  have hc := luxuryCond_of_detected (detected_pos_of_mem he hl)
  have h1 := generateResponse_of_luxury (a := a) (q := q) hc
  have h2 := generateResponse_of_luxury (a := a) (q := q') hc
  refine ⟨h1.trans h2.symm, ?_⟩
  rw [h1, luxuryResponse]
  cases hw : isWatchCase a <;> simp [hw]

/-- Witness for C1 at a concrete luxury entity ("rolex") and two queries. -/
theorem luxury_short_circuits_classification_w :
    generateResponse ⟨[⟨"Rolex", 0.9⟩], "", []⟩ "what color is it" =
      generateResponse ⟨[⟨"Rolex", 0.9⟩], "", []⟩ "where was this taken" ∧
    ((generateResponse ⟨[⟨"Rolex", 0.9⟩], "", []⟩
        "what color is it").completion =
      watchCompletion ⟨[⟨"Rolex", 0.9⟩], "", []⟩ ∨
     (generateResponse ⟨[⟨"Rolex", 0.9⟩], "", []⟩
        "what color is it").completion =
      genericLuxuryCompletion ⟨[⟨"Rolex", 0.9⟩], "", []⟩) :=
  luxury_short_circuits_classification ⟨[⟨"Rolex", 0.9⟩], "", []⟩
    "what color is it" "where was this taken"
    ⟨"rolex", by decide, by decide⟩

/-- An `AnalysisResult` whose sixth label is "Watch": the synthesizer only
lower-cases the first five labels, so the watch never reaches `mainLabels`
nor `allEntities`. -/
def watchAtSixth : AnalysisResult :=
  ⟨[⟨"Tree", 0.9⟩, ⟨"Sky", 0.9⟩, ⟨"Cloud", 0.9⟩, ⟨"Nature", 0.9⟩,
    ⟨"Landscape", 0.9⟩, ⟨"Watch", 0.9⟩], "", []⟩

/-- C2 counterexample: this `AnalysisResult` contains a label whose
description is "Watch" (case-insensitively), yet the completion does not
contain "timepiece", because only the first five labels feed `mainLabels`. -/
theorem watch_label_timepiece_cex :
    (∃ l ∈ watchAtSixth.labels, jsToLower l.description = "watch") ∧
    jsIncludes
      (generateResponse watchAtSixth "tell me about this").completion
      "timepiece" = false := by decide

/-- C2 amended: for every `AnalysisResult` whose top-5 labels include one
with lower-cased description exactly "watch", `generateResponse` returns the
watch template for every query; its completion contains "timepiece", and the
characteristics list holds at most 5 label descriptions, each from a label
whose lower-cased description is neither "watch" nor "analog watch". -/
theorem watch_in_main_labels_timepiece (a : AnalysisResult) (q : String)
    (h : "watch" ∈ mainLabels a) :
    (generateResponse a q).completion = watchCompletion a ∧
    jsIncludes (generateResponse a q).completion "timepiece" = true ∧
    (watchDetails a).length ≤ 5 ∧
    (∀ d ∈ watchDetails a, ∃ l ∈ a.labels, l.description = d ∧
      jsToLower l.description ≠ "watch" ∧
      jsToLower l.description ≠ "analog watch") := by
  have he : "watch" ∈ allEntities a := List.mem_append_left _ h
  have hc := luxuryCond_of_detected (detected_pos_of_mem he (by decide))
  have hw : isWatchCase a = true := by
    simp only [isWatchCase, Bool.or_eq_true]
    exact Or.inl (Or.inl (Or.inl (List.elem_iff.mpr h)))
  have h1 : generateResponse a q = ⟨watchCompletion a⟩ := by
    rw [generateResponse_of_luxury hc, luxuryResponse, if_pos hw]
  refine ⟨by rw [h1], ?_, ?_, ?_⟩
  · rw [h1]
    show jsIncludes (watchCompletion a) "timepiece" = true
    rw [watchCompletion]
    exact jsIncludes_append_left (jsIncludes_append_left (by decide))
  · rw [watchDetails, List.length_map, List.length_take]
    exact Nat.min_le_left _ _
  · intro d hd
    rw [watchDetails] at hd
    obtain ⟨l, hl, hdesc⟩ := List.mem_map.mp hd
    have hmem := List.mem_filter.mp (List.mem_of_mem_take hl)
    refine ⟨l, hmem.1, hdesc, fun hEq => ?_, fun hEq => ?_⟩
    · have h2 := hmem.2
      rw [hEq] at h2
      exact absurd h2 (by decide)
    · have h2 := hmem.2
      rw [hEq] at h2
      exact absurd h2 (by decide)

/-- Witness for C2 (amended) at a concrete watch image. -/
theorem watch_in_main_labels_timepiece_w :
    (generateResponse ⟨[⟨"Watch", 0.9⟩, ⟨"Strap", 0.8⟩], "", []⟩
        "hello").completion =
      watchCompletion ⟨[⟨"Watch", 0.9⟩, ⟨"Strap", 0.8⟩], "", []⟩ ∧
    jsIncludes
      (generateResponse ⟨[⟨"Watch", 0.9⟩, ⟨"Strap", 0.8⟩], "", []⟩
        "hello").completion "timepiece" = true ∧
    (watchDetails ⟨[⟨"Watch", 0.9⟩, ⟨"Strap", 0.8⟩], "", []⟩).length ≤ 5 ∧
    (∀ d ∈ watchDetails ⟨[⟨"Watch", 0.9⟩, ⟨"Strap", 0.8⟩], "", []⟩,
      ∃ l ∈ (⟨[⟨"Watch", 0.9⟩, ⟨"Strap", 0.8⟩], "", []⟩ :
          AnalysisResult).labels, l.description = d ∧
        jsToLower l.description ≠ "watch" ∧
        jsToLower l.description ≠ "analog watch") :=
  watch_in_main_labels_timepiece ⟨[⟨"Watch", 0.9⟩, ⟨"Strap", 0.8⟩], "", []⟩
    "hello" (by decide)

/-- The concrete cat input of the spec's worked example. -/
def catInput : AnalysisResult :=
  ⟨[⟨"Cat", 0.9⟩], "", [⟨"Cat", 0.9, []⟩]⟩

/-- C3: on the cat `AnalysisResult` and the query "what animal is this",
`generateResponse` returns exactly the canned cat sentence. -/
theorem cat_example_exact_completion :
    (generateResponse catInput "what animal is this").completion =
      "The image shows a cat. Cats are domestic felines known for their independent nature and grooming habits. They are popular pets worldwide." := by
  decide

/-- C4: a query whose lower-cased text contains an animal keyword ("animal"
or "pet") and also a color keyword ("color" or "colour") always classifies
to the animal intent, never the color intent, and — whenever the luxury
branch does not fire — `generateResponse` returns the animal branch. -/
theorem animal_keyword_beats_color_keyword (a : AnalysisResult) (q : String)
    (h1 : jsIncludes (jsToLower q) "animal" = true ∨
      jsIncludes (jsToLower q) "pet" = true)
    (h2 : jsIncludes (jsToLower q) "color" = true ∨
      jsIncludes (jsToLower q) "colour" = true) :
    classifyQuery q = Intent.animal ∧ classifyQuery q ≠ Intent.color ∧
    (luxuryCond a = false → generateResponse a q = animalResponse a) := by
  have hcl : classifyQuery q = Intent.animal := by
    rcases h1 with h | h <;> simp [classifyQuery, h]
  refine ⟨hcl, by rw [hcl]; exact fun hf => Intent.noConfusion hf, fun hl => ?_⟩
  simp [generateResponse, hl, hcl]

/-- Witness for C4 on a query holding both keyword kinds. -/
theorem animal_keyword_beats_color_keyword_w :
    classifyQuery "what color animal is this" = Intent.animal ∧
    generateResponse ⟨[], "", []⟩ "what color animal is this" =
      animalResponse ⟨[], "", []⟩ :=
  ⟨(animal_keyword_beats_color_keyword ⟨[], "", []⟩ "what color animal is this"
      (Or.inl (by decide)) (Or.inl (by decide))).1,
   (animal_keyword_beats_color_keyword ⟨[], "", []⟩ "what color animal is this"
      (Or.inl (by decide)) (Or.inl (by decide))).2.2 (by decide)⟩

/-- C5: on an `AnalysisResult` with empty labels, empty text and empty
objects, every query containing none of the intent keywords yields the
designated no-identifiable-objects sentence. -/
theorem empty_analysis_default_sentence (a : AnalysisResult) (q : String)
    (hl : a.labels = []) (ht : a.text = "") (ho : a.objects = [])
    (k1 : jsIncludes (jsToLower q) "animal" = false)
    (k2 : jsIncludes (jsToLower q) "pet" = false)
    (k3 : jsIncludes (jsToLower q) "object" = false)
    (k4 : jsIncludes (jsToLower q) "thing" = false)
    (k5 : jsIncludes (jsToLower q) "what is" = false)
    (k6 : jsIncludes (jsToLower q) "what's in" = false)
    (k7 : jsIncludes (jsToLower q) "show me" = false)
    (k8 : jsIncludes (jsToLower q) "color" = false)
    (k9 : jsIncludes (jsToLower q) "colour" = false)
    (k10 : jsIncludes (jsToLower q) "text" = false)
    (k11 : jsIncludes (jsToLower q) "say" = false)
    (k12 : jsIncludes (jsToLower q) "write" = false)
    (k13 : jsIncludes (jsToLower q) "read" = false)
    (k14 : jsIncludes (jsToLower q) "where" = false)
    (k15 : jsIncludes (jsToLower q) "location" = false) :
    (generateResponse a q).completion =
      "This image doesn't contain clearly identifiable objects or features that I can describe with confidence." := by
  have hcl : classifyQuery q = Intent.dflt := by
    simp [classifyQuery, k1, k2, k3, k4, k5, k6, k7, k8, k9, k10, k11, k12,
      k13, k14, k15]
  obtain ⟨ls, tx, os⟩ := a
  simp only at hl ht ho
  subst hl; subst ht; subst ho
  have hlux : luxuryCond ⟨[], "", []⟩ = false := by decide
  simp only [generateResponse, hlux, Bool.false_eq_true, if_false, hcl]
  decide

/-- Witness for C5 at the query "hello". -/
theorem empty_analysis_default_sentence_w :
    (generateResponse ⟨[], "", []⟩ "hello").completion =
      "This image doesn't contain clearly identifiable objects or features that I can describe with confidence." :=
  empty_analysis_default_sentence ⟨[], "", []⟩ "hello" rfl rfl rfl
    (by decide) (by decide) (by decide) (by decide) (by decide) (by decide)
    (by decide) (by decide) (by decide) (by decide) (by decide) (by decide)
    (by decide) (by decide) (by decide)

/-- C6: on any failure of the external call, `analyzeImage` returns the
static mock fallback (it never propagates the failure), and the fallback is
selected purely by a pattern check on the image reference: the person
fixture for a base64 data URI containing the recognized signature, the
generic object fixture for any other reference starting with "data:image/",
and the landscape fixture for plain URLs. -/
theorem analyze_image_failure_returns_fallback (imageUrl : String)
    (features : List String) (msg : String) :
    analyzeImage (.failure msg) imageUrl features = getMockResponse imageUrl ∧
    ((jsStartsWith imageUrl "data:image/" = true ∧
        jsIncludes imageUrl base64PersonSignature = true ∧
        getMockResponse imageUrl = personFixture) ∨
     (jsStartsWith imageUrl "data:image/" = true ∧
        jsIncludes imageUrl base64PersonSignature = false ∧
        getMockResponse imageUrl = genericObjectFixture) ∨
     (jsStartsWith imageUrl "data:image/" = false ∧
        getMockResponse imageUrl = landscapeFixture)) := by
  refine ⟨rfl, ?_⟩
  cases hs : jsStartsWith imageUrl "data:image/" with
  | false => exact Or.inr (Or.inr ⟨rfl, by simp [getMockResponse, hs]⟩)
  | true =>
    cases hi : jsIncludes imageUrl base64PersonSignature with
    | false => exact Or.inr (Or.inl ⟨rfl, rfl, by simp [getMockResponse, hs, hi]⟩)
    | true => exact Or.inl ⟨rfl, rfl, by simp [getMockResponse, hs, hi]⟩

/-- C7: the combined `/api/analyze-and-query` route with a present, nonempty
imageUrl and query delivers exactly the composition of `/api/analyze-image`
(on the same imageUrl and features) followed by `/api/query-ora` on the
returned data with the same query; its `oraResponse` field equals the
synthesized answer the second call returns. -/
theorem combined_route_equals_composition (outcome : VisionOutcome)
    (body : CombinedBody) (u q : String)
    (hu : body.imageUrl = some u) (hq : body.query = some q)
    (hu' : u ≠ "") (hq' : q ≠ "") :
    ∃ a : AnalysisResult,
      handleAnalyzeImage outcome ⟨some u, body.features⟩ =
        .ok ⟨true, a⟩ ∧
      handleQueryOra ⟨some a, some q⟩ = .ok (generateResponse a q) ∧
      handleAnalyzeAndQuery outcome body = .ok a (generateResponse a q) := by
  refine ⟨analyzeImage outcome u (body.features.getD defaultFeatures),
    ?_, ?_, ?_⟩
  · simp [handleAnalyzeImage, googleVisionExecute, hu']
  · simp [handleQueryOra, oraExecute, hq']
  · obtain ⟨iu, iq, fs⟩ := body
    simp only at hu hq
    subst hu; subst hq
    simp [handleAnalyzeAndQuery, googleVisionExecute, oraExecute, hu', hq']

/-- Witness for C7 at a concrete request whose external call fails. -/
theorem combined_route_equals_composition_w :
    ∃ a : AnalysisResult,
      handleAnalyzeImage (.failure "network error")
          ⟨some "https://example.com/sample-image.jpg", none⟩ =
        .ok ⟨true, a⟩ ∧
      handleQueryOra ⟨some a, some "what can you tell me"⟩ =
        .ok (generateResponse a "what can you tell me") ∧
      handleAnalyzeAndQuery (.failure "network error")
          ⟨some "https://example.com/sample-image.jpg",
           some "what can you tell me", none⟩ =
        .ok a (generateResponse a "what can you tell me") :=
  combined_route_equals_composition (.failure "network error")
    ⟨some "https://example.com/sample-image.jpg",
     some "what can you tell me", none⟩
    "https://example.com/sample-image.jpg" "what can you tell me"
    rfl rfl (by decide) (by decide)

/-- C8: a POST body missing a required field yields the 400 missing-field
response with its error message on each of the three API routes — never a
500 — and the response is computed without consulting the vision action
(the handler result is independent of the external call's outcome). -/
theorem missing_field_yields_400 (o o' : VisionOutcome)
    (b1 : AnalyzeImageBody) (h1 : b1.imageUrl = none)
    (b2 : QueryOraBody) (h2 : b2.imageAnalysis = none ∨ b2.query = none)
    (b3 : CombinedBody) (h3 : b3.imageUrl = none ∨ b3.query = none) :
    handleAnalyzeImage o b1 = .missingField "imageUrl is required" ∧
    analyzeImageStatus (handleAnalyzeImage o b1) = 400 ∧
    handleAnalyzeImage o b1 = handleAnalyzeImage o' b1 ∧
    handleQueryOra b2 = .missingField "imageAnalysis and query are required" ∧
    queryOraStatus (handleQueryOra b2) = 400 ∧
    handleAnalyzeAndQuery o b3 =
      .missingField "imageUrl and query are required" ∧
    combinedStatus (handleAnalyzeAndQuery o b3) = 400 ∧
    combinedStatus (handleAnalyzeAndQuery o b3) ≠ 500 ∧
    handleAnalyzeAndQuery o b3 = handleAnalyzeAndQuery o' b3 := by
  have e1 : handleAnalyzeImage o b1 = .missingField "imageUrl is required" := by
    simp [handleAnalyzeImage, h1]
  have e1' : handleAnalyzeImage o' b1 = .missingField "imageUrl is required" := by
    simp [handleAnalyzeImage, h1]
  have e2 : handleQueryOra b2 =
      .missingField "imageAnalysis and query are required" := by
    obtain ⟨ia, iq⟩ := b2
    simp only at h2
    rcases h2 with h | h
    · subst h; rfl
    · subst h; cases ia <;> rfl
  have e3 : handleAnalyzeAndQuery o b3 =
      .missingField "imageUrl and query are required" := by
    obtain ⟨iu, iq, fs⟩ := b3
    simp only at h3
    rcases h3 with h | h
    · subst h; rfl
    · subst h; cases iu <;> rfl
  have e3' : handleAnalyzeAndQuery o' b3 =
      .missingField "imageUrl and query are required" := by
    obtain ⟨iu, iq, fs⟩ := b3
    simp only at h3
    rcases h3 with h | h
    · subst h; rfl
    · subst h; cases iu <;> rfl
  refine ⟨e1, by rw [e1]; rfl, e1.trans e1'.symm, e2, by rw [e2]; rfl,
    e3, by rw [e3]; rfl, by rw [e3]; decide, e3.trans e3'.symm⟩

/-- Witness for C8 at concrete bodies with the required fields absent. -/
theorem missing_field_yields_400_w :
    handleAnalyzeImage (.failure "down") ⟨none, none⟩ =
      .missingField "imageUrl is required" ∧
    analyzeImageStatus (handleAnalyzeImage (.failure "down") ⟨none, none⟩) =
      400 ∧
    handleAnalyzeImage (.failure "down") ⟨none, none⟩ =
      handleAnalyzeImage (.ok landscapeFixture) ⟨none, none⟩ ∧
    handleQueryOra ⟨none, some "what is this"⟩ =
      .missingField "imageAnalysis and query are required" ∧
    queryOraStatus (handleQueryOra ⟨none, some "what is this"⟩) = 400 ∧
    handleAnalyzeAndQuery (.failure "down") ⟨none, some "what is this", none⟩ =
      .missingField "imageUrl and query are required" ∧
    combinedStatus (handleAnalyzeAndQuery (.failure "down")
      ⟨none, some "what is this", none⟩) = 400 ∧
    combinedStatus (handleAnalyzeAndQuery (.failure "down")
      ⟨none, some "what is this", none⟩) ≠ 500 ∧
    handleAnalyzeAndQuery (.failure "down") ⟨none, some "what is this", none⟩ =
      handleAnalyzeAndQuery (.ok landscapeFixture)
        ⟨none, some "what is this", none⟩ :=
  missing_field_yields_400 (.failure "down") (.ok landscapeFixture)
    ⟨none, none⟩ rfl ⟨none, some "what is this"⟩ (Or.inl rfl)
    ⟨none, some "what is this", none⟩ (Or.inl rfl)

/-- C9: the luxury sub-case nested in the object branch is dead code —
`generateResponse` agrees everywhere with the variant whose object branch
lacks that sub-case, because whenever `detectedLuxuryItems` is nonempty the
top-level luxury branch answers before query classification is consulted. -/
theorem object_branch_luxury_subcase_dead (a : AnalysisResult) (q : String) :
    generateResponse a q = generateResponseNoDead a q ∧
    (0 < (detectedLuxuryItems a).length →
      generateResponse a q = luxuryResponse a) := by
  constructor
  · rw [generateResponse, generateResponseNoDead]
    cases hc : luxuryCond a with
    | true => simp [hc]
    | false =>
      have hd : (detectedLuxuryItems a).length = 0 := by
        simp only [luxuryCond, Bool.or_eq_false_iff, decide_eq_false_iff_not]
          at hc
        omega
      simp only [Bool.false_eq_true, if_false]
      cases classifyQuery q <;>
        simp [objectResponse, objectResponseNoDead, hd]
  · exact fun h => generateResponse_of_luxury (luxuryCond_of_detected h)

/-- Witness for C9 at a concrete luxury input. -/
theorem object_branch_luxury_subcase_dead_w :
    generateResponse ⟨[⟨"Rolex", 0.9⟩], "", [⟨"Watch", 0.9, []⟩]⟩
        "what is this" =
      generateResponseNoDead ⟨[⟨"Rolex", 0.9⟩], "", [⟨"Watch", 0.9, []⟩]⟩
        "what is this" ∧
    generateResponse ⟨[⟨"Rolex", 0.9⟩], "", [⟨"Watch", 0.9, []⟩]⟩
        "what is this" =
      luxuryResponse ⟨[⟨"Rolex", 0.9⟩], "", [⟨"Watch", 0.9, []⟩]⟩ :=
  ⟨(object_branch_luxury_subcase_dead
      ⟨[⟨"Rolex", 0.9⟩], "", [⟨"Watch", 0.9, []⟩]⟩ "what is this").1,
   (object_branch_luxury_subcase_dead
      ⟨[⟨"Rolex", 0.9⟩], "", [⟨"Watch", 0.9, []⟩]⟩ "what is this").2
     (by decide)⟩

/-- C10: `OraAction.execute` never propagates an exception: its outcome is
always either the generated response or the catch clause's error object,
and whenever `prepareContextString` or `generateResponse` raises on a
malformed `imageAnalysis`, the outcome is the error object built from the
raised message. -/
theorem ora_execute_never_throws (p : OraParams) :
    ((∃ r, oraExecuteRaw p = .response r) ∨
     (∃ m, oraExecuteRaw p =
        .errorObj ("Failed to query ORA API: " ++ m))) ∧
    (((∃ e, prepareContextStringE p.imageAnalysis = .error e) ∨
      (∃ e, generateResponseE p.imageAnalysis p.query = .error e)) →
      ∃ m, oraExecuteRaw p = .errorObj ("Failed to query ORA API: " ++ m)) := by
  cases hp : prepareContextStringE p.imageAnalysis with
  | error e =>
    have he : oraExecuteRaw p = .errorObj ("Failed to query ORA API: " ++ e) := by
      simp [oraExecuteRaw, hp]
    exact ⟨Or.inr ⟨e, he⟩, fun _ => ⟨e, he⟩⟩
  | ok v =>
    cases hg : generateResponseE p.imageAnalysis p.query with
    | error e =>
      have he : oraExecuteRaw p =
          .errorObj ("Failed to query ORA API: " ++ e) := by
        simp [oraExecuteRaw, hp, hg]
      exact ⟨Or.inr ⟨e, he⟩, fun _ => ⟨e, he⟩⟩
    | ok r =>
      refine ⟨Or.inl ⟨r, by simp [oraExecuteRaw, hp, hg]⟩, ?_⟩
      rintro (⟨e, he⟩ | ⟨e, he⟩)
      · exact Except.noConfusion he
      · exact Except.noConfusion he

/-- Witness for C10 at a parameters object whose imageAnalysis lacks the
labels field, so `generateResponse` raises inside the try block. -/
theorem ora_execute_never_throws_w :
    ∃ m, oraExecuteRaw ⟨⟨none, none, none⟩, "hello"⟩ =
      .errorObj ("Failed to query ORA API: " ++ m) :=
  (ora_execute_never_throws ⟨⟨none, none, none⟩, "hello"⟩).2
    (Or.inr ⟨"cannot read slice of undefined labels", rfl⟩)

end VisionAgent
